import Mathlib

set_option maxRecDepth 8000

/-!
# Veritas-on-TON — Investigation Orchestrator and Deterministic Trust Scoring

Shallow embedding of the core of the `veritas-on-ton` repository:
the `VeritasInvestigator` orchestrator (`src/lib/utils.ts`), the
deterministic trust-score engine (`computeTrustScore`), the score
combination with the visual-reuse override, the known-scammer registry
(`src/lib/db/elephant.ts`), the reasoning-reply parser
(`src/lib/ai/unified-analyzer.ts`), the rate limiter
(`src/lib/security/RateLimiter.ts`), the result cache (the `lru-cache`
library configured with `max 50, ttl 5 min`), and the TonAPI token-info
mapping (`src/lib/blockchain.ts`).

JavaScript numbers are modelled as `ℚ` where fractional arithmetic
occurs (market ratios, percentages, AI scores) and `ℤ` for the purely
integral deterministic score; nullable values are `Option`; thrown
errors are `Except`; the Mongo collection and the in-memory maps are
association lists.  External network collaborators are modelled as an
environment record holding the value each collaborator call would
produce during the investigation; the orchestrator additionally returns
the list of collaborator calls it performed, in order.
-/

namespace Veritas

/-! ## JavaScript value helpers

Truthiness and `||` on nullable strings, as used by the orchestrator
(`mintAuthority || freezeAuthority`, `x || "Unknown"`, `if (creatorAddress)`).
-/

/-- JS truthiness of a nullable string: `null` and `""` are falsy. -/
def strTruthy : Option String → Bool
  | some s => s ≠ ""
  | none => false

/-- JS `a || b` on nullable strings: yields `b` when `a` is falsy. -/
def jsOrStr : Option String → Option String → Option String
  | some a, b => if a = "" then b else some a
  | none, b => b

/-- JS `a || d` with a string default (`mintAuth || freezeAuth || "Unknown"`). -/
def jsOrStrD : Option String → String → String
  | some a, d => if a = "" then d else a
  | none, d => d

/-- Normalize a JS nullable string to `some` iff truthy
(used for `tokenInfo.mintAuthority || null` and the `if (creatorAddress)` guard). -/
def truthyOpt : Option String → Option String
  | some s => if s = "" then none else some s
  | none => none

/-! ## Character-level string matching

Executable models of the regular-expression tests used by the
orchestrator's visual-reuse override:
`/VISUAL ASSET REUSE:\s*YES/i`, `/VISUAL ASSET REUSE:\s*NO/i`, and the
meme-culture alternation, all case-insensitive substring searches.
-/

/-- JS `\s` whitespace class (common members; the patterns involved are ASCII). -/
def jsWhitespace (c : Char) : Bool :=
  c == ' ' || c == '\t' || c == '\n' || c == '\r' || c == '\x0b' || c == '\x0c'

/-- Drop leading JS whitespace (the `\s*` part of the pattern). -/
def dropJsSpaces : List Char → List Char
  | [] => []
  | c :: cs => if jsWhitespace c then dropJsSpaces cs else c :: cs

/-- JS `String.trim()`: strip leading and trailing whitespace (defined
over the character list so that it is kernel-computable). -/
def jsTrim (s : String) : String :=
  ⟨dropJsSpaces ((dropJsSpaces s.data.reverse).reverse)⟩

/-- Does `p` start the list `l` (both already lower-cased)? -/
def startsWith : List Char → List Char → Bool
  | [], _ => true
  | _ :: _, [] => false
  | p :: ps, c :: cs => p == c && startsWith ps cs

/-- Strip `p` from the front of `l`, returning the remainder on success. -/
def stripFront : List Char → List Char → Option (List Char)
  | [], l => some l
  | _ :: _, [] => none
  | p :: ps, c :: cs => if p == c then stripFront ps cs else none

/-- Case-insensitive substring test (`/pat/i.test(s)` for a literal `pat`),
on lower-cased character lists. -/
def containsSub (pat : List Char) : List Char → Bool
  | [] => startsWith pat []
  | c :: cs => startsWith pat (c :: cs) || containsSub pat cs

/-- Lower-case a string to a character list (models the `/i` flag). -/
def lcChars (s : String) : List Char := s.data.map Char.toLower

/-- Match `"visual asset reuse:" ++ \s* ++ word` at some position of `l`. -/
def reuseSearch (word : List Char) : List Char → Bool
  | [] => false
  | c :: cs =>
    (match stripFront (lcChars "VISUAL ASSET REUSE:") (c :: cs) with
     | some rest => startsWith word (dropJsSpaces rest)
     | none => false)
    || reuseSearch word cs

/-- `/VISUAL ASSET REUSE:\s*YES/i.test(s)`. -/
def hasReuseYes (s : String) : Bool := reuseSearch (lcChars "YES") (lcChars s)

/-- `/VISUAL ASSET REUSE:\s*NO/i.test(s)`. -/
def hasReuseNo (s : String) : Bool := reuseSearch (lcChars "NO") (lcChars s)

/-- Case-insensitive literal substring test. -/
def containsCI (s pat : String) : Bool := containsSub (lcChars pat) (lcChars s)

/-- The meme-culture exclusion alternation of the scam-template override:
`/meme culture|meme aesthetic|thematic|standard for|pepe|wojak|doge|iconic meme|cultural|tribute|community meme/i`. -/
def memeExcused (s : String) : Bool :=
  containsCI s "meme culture" || containsCI s "meme aesthetic" ||
  containsCI s "thematic" || containsCI s "standard for" ||
  containsCI s "pepe" || containsCI s "wojak" || containsCI s "doge" ||
  containsCI s "iconic meme" || containsCI s "cultural" ||
  containsCI s "tribute" || containsCI s "community meme"

/-! ## Known-Entity Registry (`src/lib/db/elephant.ts`)

The Mongo collection `scammers` is modelled as a list of records;
`findOne` returns the first match, `updateOne` with `$inc` bumps the
first match's counter.  These definitions model the database-connected
case (`getDatabase()` non-null); with no database the source returns the
neutral values `null`/`false` without touching any record.
-/

/-- `ScammerRecord` of `elephant.ts`; `flaggedAt` is an epoch-millisecond
timestamp (the narrative ISO rendering of it is not modelled). -/
structure ScammerRecord where
  deployerAddress : String
  tokenAddress : String
  tokenName : Option String
  verdict : String
  reason : String
  flaggedAt : Nat
  scanCount : Nat
  deriving DecidableEq, Repr

/-- The `scammers` collection. -/
abbrev Registry := List ScammerRecord

/-- `collection.findOne({ deployerAddress })`: the first record whose
deployer matches. -/
def findScammer : Registry → String → Option ScammerRecord
  | [], _ => none
  | r :: rs, a => if r.deployerAddress == a then some r else findScammer rs a

/-- `collection.updateOne({ deployerAddress }, { $inc: { scanCount: 1 } })`. -/
def incScanCount : Registry → String → Registry
  | [], _ => []
  | r :: rs, a =>
    if r.deployerAddress == a then { r with scanCount := r.scanCount + 1 } :: rs
    else r :: incScanCount rs a

/-- `checkKnownScammer`: returns the record found (pre-increment) and the
collection with its `scanCount` incremented; `none` and the unchanged
collection when absent. -/
def checkKnownScammer (db : Registry) (deployerAddress : String) :
    Option ScammerRecord × Registry :=
  match findScammer db deployerAddress with
  | some r => (some r, incScanCount db deployerAddress)
  | none => (none, db)

/-- `flagScammer`: idempotent insert; returns `true` and leaves the
collection unchanged when the deployer is already present, otherwise
appends a fresh record with `scanCount = 1`. -/
def flagScammer (db : Registry) (deployerAddress tokenAddress tokenName verdict reason : String)
    (now : Nat) : Bool × Registry :=
  match findScammer db deployerAddress with
  | some _ => (true, db)
  | none =>
    (true, db ++ [{ deployerAddress, tokenAddress, tokenName := some tokenName,
                    verdict, reason, flaggedAt := now, scanCount := 1 }])

/-! ## Blockchain layer (`src/lib/blockchain.ts`) -/

/-- `validateAddress`: trimmed length in `[8, 128]` (the `!address` and
`typeof` guards are subsumed: an empty string fails the length check). -/
def validateAddress (address : String) : Bool :=
  let trimmed := jsTrim address
  8 ≤ trimmed.length && trimmed.length ≤ 128

/-- The fields of the TonAPI jetton response that `getTokenInfo` reads,
after the source's `??` fallback chains over alternative keys:
`totalSupply` is `data?.total_supply ?? data?.totalSupply ?? data?.supply`
(carried as the numeric value that `Number()` later yields from the raw
string), `decimals` is `data?.metadata?.decimals ?? data?.decimals`, and
`admin` is `data?.admin ?? data?.owner`. -/
structure TonApiData where
  totalSupply : Option ℚ
  decimals : Option Nat
  admin : Option String
  deriving Repr

/-- Outcome of the TonAPI fetch: a non-2xx status or a thrown fetch error
versus a decoded body. -/
inductive TonApiResp where
  | failure
  | ok (data : TonApiData)
  deriving Repr

/-- `TokenInfoStub`; `supply` carries the numeric value of the raw
supply string (the source stores the string and applies `Number()` at
its single use site). -/
structure TokenInfoStub where
  decimals : Nat
  supply : ℚ
  mintAuthority : Option String
  freezeAuthority : Option String
  deriving DecidableEq, Repr

/-- `getTokenInfo`: on failure the safe fallback
`{decimals 9, supply "0", null, null}`; otherwise decimals default to 9
(`Number(… ?? 9) || 9`, so an explicit 0 also becomes 9), and both
authorities are mapped from the same `admin` field, `null` unless it is
a non-empty, non-whitespace string. -/
def getTokenInfo : TonApiResp → TokenInfoStub
  | .failure => { decimals := 9, supply := 0, mintAuthority := none, freezeAuthority := none }
  | .ok d =>
    let decimals := match d.decimals with
      | some 0 => 9
      | some n => n
      | none => 9
    let supply := d.totalSupply.getD 0
    let hasAdmin : Bool := match d.admin with
      | some a => jsTrim a != ""
      | none => false
    { decimals, supply,
      mintAuthority := if hasAdmin then d.admin else none,
      freezeAuthority := if hasAdmin then d.admin else none }

/-- One entry of `getHolderDistribution`'s `topHolders`. -/
structure HolderStub where
  address : String
  balance : ℚ
  percentage : ℚ
  deriving DecidableEq, Repr

/-- Result of `getHolderDistribution` (computed from the TonAPI holders
response; treated as a collaborator value here). -/
structure HolderResult where
  topHolders : List HolderStub
  top10Percentage : ℚ
  deriving Repr

/-! ## Collaborator result types (market, socials, audit, screenshot, AI) -/

/-- `MarketAnalysis` of `src/lib/api/market.ts` (the fields the
orchestrator reads). -/
structure MarketAnalysis where
  liquidity : ℚ
  volume24h : ℚ
  marketCap : ℚ
  buySellRatio : ℚ
  ageInHours : ℚ
  botActivity : String
  anomalies : List String
  deriving DecidableEq, Repr

/-- `TokenSocials` of `src/types/index.ts`. -/
structure TokenSocials where
  name : Option String
  symbol : Option String
  website : Option String
  twitter : Option String
  telegram : Option String
  discord : Option String
  deriving DecidableEq, Repr

/-- One entry of `TonSecurityReport.risks`. -/
structure TonSecurityRisk where
  name : String
  description : String
  level : String
  score : ℤ
  deriving DecidableEq, Repr

/-- `TonSecurityReport` of `src/lib/api/tonsecurity.ts`
(`score` is a risk score: higher = riskier). -/
structure TonSecurityReport where
  score : ℤ
  risks : List TonSecurityRisk
  deriving DecidableEq, Repr

/-- A captured screenshot (`fetchScreenshotAsBase64` success value). -/
structure Screenshot where
  base64 : String
  mimeType : String
  deriving DecidableEq, Repr

/-- The reasoning adapter's output as consumed by the orchestrator
(the fields of `UnifiedAnalysisResult` that `investigate` reads;
narrative-only fields are carried as opaque strings). -/
structure AiVerdict where
  trustScore : ℚ
  verdict : String
  summary : String
  visualAnalysis : Option String
  deriving DecidableEq, Repr

/-- Output of `analyzeCreator`. -/
structure CreatorStatus where
  creatorAddress : String
  creatorPercentage : ℚ
  isDumped : Bool
  isWhale : Bool
  deriving DecidableEq, Repr

/-- `analyzeCreator` (private helper of `VeritasInvestigator`): the
creator is the mint or freeze authority (never guessed from holders),
`"Unknown"` when both are falsy; dumped = known creator holding < 1%
with positive supply; whale = holding > 20%. -/
def analyzeCreator (mintAuth freezeAuth : Option String)
    (topHolders : List HolderStub) (supply : ℚ) : CreatorStatus :=
  let creatorAddress := jsOrStrD mintAuth (jsOrStrD freezeAuth "Unknown")
  let creatorPercentage :=
    if creatorAddress ≠ "Unknown" then
      match topHolders.find? (fun h => h.address == creatorAddress) with
      | some h => h.percentage
      | none => 0
    else 0
  let isDumped : Bool := creatorAddress != "Unknown" && creatorPercentage < 1 && supply > 0
  let isWhale : Bool := creatorPercentage > 20
  { creatorAddress, creatorPercentage, isDumped, isWhale }

/-! ## Deterministic Score Engine (`computeTrustScore`, utils.ts 997–1040) -/

/-- The slice of `MarketAnalysis` read by `computeTrustScore`. -/
structure MarketLite where
  liquidity : ℚ
  marketCap : ℚ
  deriving DecidableEq, Repr

/-- `computeTrustScore`: starts at 100, subtracts the fixed penalties
(40 per enabled authority, 15/10 for top-10 concentration > 50/30 %,
15 dumped / 10 whale creator, 20 for liquidity < 5000 else 15 for a
liquidity-to-cap ratio < 0.02, 10 for age < 1 h, 20/10 for an audit risk
score > 500/200), clamped into `[0, 88]`.  The authority guards are JS
truthiness on the nullable strings. -/
def computeTrustScore (mintAuth freezeAuth : Option String) (top10Percentage : ℚ)
    (marketData : Option MarketLite) (creatorStatus : CreatorStatus)
    (tonSecurity : Option TonSecurityReport) (ageInHours : ℚ) : ℤ :=
  let score : ℤ := 100
  let score := if strTruthy mintAuth then score - 40 else score
  let score := if strTruthy freezeAuth then score - 40 else score
  let score :=
    if top10Percentage > 50 then score - 15
    else if top10Percentage > 30 then score - 10
    else score
  let score := if creatorStatus.isDumped then score - 15 else score
  let score := if creatorStatus.isWhale then score - 10 else score
  let score :=
    match marketData with
    | some md =>
      if md.liquidity < 5000 then score - 20
      else if md.marketCap > 0 then
        if md.liquidity / md.marketCap < 2 / 100 then score - 15 else score
      else score
    | none => score
  let score := if ageInHours < 1 then score - 10 else score
  let score :=
    match tonSecurity with
    | some ts =>
      if ts.score > 500 then score - 20
      else if ts.score > 200 then score - 10
      else score
    | none => score
  min 88 (max 0 score)

/-! ## Score combination and verdict (utils.ts 822–839) -/

/-- The score combination step of `investigate`:
`finalScore = min(deterministic, ai)` followed by the scam-template
override, which fires only when a website screenshot exists, the AI
rationale is a truthy string passing the `VISUAL ASSET REUSE: YES` test
but not the meme-culture exclusion, and the combined score exceeds 50 —
in which case the score becomes 50. -/
def combineScores (deterministicScore aiTrustScore : ℚ)
    (websiteScreenshot : Option Screenshot) (visualAnalysis : Option String) : ℚ :=
  let finalScore := min deterministicScore aiTrustScore
  let nuke : Bool :=
    websiteScreenshot.isSome &&
    (match visualAnalysis with
     | some v => v != "" && hasReuseYes v && !memeExcused v
     | none => false) &&
    finalScore > 50
  if nuke then 50 else finalScore

/-- Verdict buckets: `Safe ≥ 70`, `Caution ≥ 40`, else `Danger`. -/
inductive Verdict where
  | safe
  | caution
  | danger
  deriving DecidableEq, Repr

/-- `finalScore >= 70 ? "Safe" : finalScore >= 40 ? "Caution" : "Danger"`. -/
def verdictOfScore (finalScore : ℚ) : Verdict :=
  if finalScore ≥ 70 then .safe else if finalScore ≥ 40 then .caution else .danger

/-! ## Reasoning-reply parser (`src/lib/ai/unified-analyzer.ts` 246–282)

`parseUnifiedResponse` first extracts a JSON candidate from the reply
(code fence, else first `\x7b` to last `\x7d`) and runs `JSON.parse`;
that front end is modelled by taking an `Option Json` input, `none`
standing for "`JSON.parse` threw" (no parseable JSON anywhere in the
reply).  The field-extraction stage is modelled exactly, including the
JS defaulting (`|| 50`, `|| "Caution"`, …) and `Number()` coercion.
-/

/-- A parsed JSON value (`JSON.parse` output). -/
inductive Json where
  | null
  | bool (b : Bool)
  | num (q : ℚ)
  | str (s : String)
  | arr (elems : List Json)
  | obj (fields : List (String × Json))

/-- JS property access `parsed.name`: `undefined` (here `none`) unless
`parsed` is an object with the field. -/
def jsField : Json → String → Option Json
  | .obj fields, name => (fields.find? (fun f => f.1 == name)).map (·.2)
  | _, _ => none

/-- JS `Number(x)` on a possibly-missing JSON value; `none` is `NaN`.
`Number(undefined) = NaN`, `Number(null) = 0`, booleans map to 0/1,
an empty array to 0 and a singleton array to the number of its element
(via string conversion); other arrays, objects and non-numeric strings
are `NaN`.  String-to-number parsing of numeric strings is not spelled
out: a string field is modelled as `NaN` (the reasoning engine's
`trustScore` is emitted as a JSON number). -/
def jsNumberOf : Option Json → Option ℚ
  | none => none
  | some .null => some 0
  | some (.bool true) => some 1
  | some (.bool false) => some 0
  | some (.num q) => some q
  | some (.str _) => none
  | some (.arr []) => some 0
  | some (.arr [.num q]) => some q
  | some (.arr [.null]) => some 0
  | some (.arr _) => none
  | some (.obj _) => none

/-- JS `x || d` on a possibly-missing JSON value: `d` when the value is
absent or falsy (`null`, `false`, `0`, `""`). -/
def jsOrJson (x : Option Json) (d : Json) : Json :=
  match x with
  | none => d
  | some .null => d
  | some (.bool false) => d
  | some (.bool true) => .bool true
  | some (.num q) => if q = 0 then d else .num q
  | some (.str s) => if s = "" then d else .str s
  | some v => v

/-- `Array.isArray(x) ? x : []`. -/
def jsArrOr (x : Option Json) : List Json :=
  match x with
  | some (.arr elems) => elems
  | _ => []

/-- The record literal `parseUnifiedResponse` returns: the declared TS
field types are not enforced at runtime, so the fields are carried as
JSON values. -/
structure ParsedUnified where
  trustScore : ℚ
  verdict : Json
  summary : Json
  criminalProfile : Json
  lies : List Json
  evidence : List Json
  analysis : List Json
  visualAnalysis : Option Json
  degenComment : Json

/-- `parseUnifiedResponse`: `none` exactly when `JSON.parse` threw
(modelled by the `none` input); any parsed value — of any shape — is
turned into a result, with `trustScore = min(100, max(0, Number(… ) || 50))`
(so `NaN` and `0` both become 50) and every other field defaulted by JS
`||` when absent or falsy.  The `catch` block converts the exception to
`null`; nothing escapes. -/
def parseUnifiedResponse : Option Json → Option ParsedUnified
  | none => none
  | some parsed =>
    let rawScore : ℚ :=
      match jsNumberOf (jsField parsed "trustScore") with
      | none => 50
      | some q => if q = 0 then 50 else q
    some {
      trustScore := min 100 (max 0 rawScore),
      verdict := jsOrJson (jsField parsed "verdict") (.str "Caution"),
      summary := jsOrJson (jsField parsed "summary") (.str "Analysis complete."),
      criminalProfile := jsOrJson (jsField parsed "criminalProfile") (.str "Unknown Entity"),
      lies := jsArrOr (jsField parsed "lies"),
      evidence := jsArrOr (jsField parsed "evidence"),
      analysis := jsArrOr (jsField parsed "analysis"),
      visualAnalysis := jsField parsed "visualAnalysis",
      degenComment := jsOrJson (jsField parsed "degenComment") (.str "Do your own research, anon. 🔍") }

/-! ## Rate limiter (`src/lib/security/RateLimiter.ts`)

The module-level `Map<string, number[]>` is an association list keyed by
IP; timestamps are epoch milliseconds.  `Date.now()` is passed
explicitly as `now`.  The JS subtraction `Date.now() - WINDOW_MS` can be
negative, so the cutoff comparison is done in `ℤ`.
-/

def WINDOW_MS : ℕ := 60 * 1000

def MAX_REQUESTS : ℕ := 5

/-- `RateLimitExceededError`: the `retryAfterSeconds` field is the fixed
literal 60; the constructor records the offending IP and count (its
interpolated `message` is determined by these and not modelled
separately). -/
structure RateLimitExceededError where
  retryAfterSeconds : ℕ
  ip : String
  count : ℕ
  deriving DecidableEq, Repr

/-- `new RateLimitExceededError(ip, count)`. -/
def mkRateLimitExceededError (ip : String) (count : ℕ) : RateLimitExceededError :=
  { retryAfterSeconds := 60, ip, count }

/-- The per-IP timestamp store. -/
abbrev RLStore := List (String × List ℕ)

/-- `store.get(ip)`. -/
def rlGet (st : RLStore) (ip : String) : Option (List ℕ) :=
  (st.find? (fun e => e.1 == ip)).map (·.2)

/-- `store.set(ip, v)`: replace the binding if present, else add it. -/
def rlSet : RLStore → String → List ℕ → RLStore
  | [], ip, v => [(ip, v)]
  | e :: es, ip, v => if e.1 == ip then (ip, v) :: es else e :: rlSet es ip v

/-- `store.delete(ip)`. -/
def rlDelete : RLStore → String → RLStore
  | [], _ => []
  | e :: es, ip => if e.1 == ip then es else e :: rlDelete es ip

/-- `prune(ip)`: drop timestamps at or below `now - WINDOW_MS`; an entry
left empty is deleted, and an absent or empty entry is left alone. -/
def prune (st : RLStore) (ip : String) (now : ℕ) : RLStore :=
  match rlGet st ip with
  | none => st
  | some [] => st
  | some ts =>
    let kept := ts.filter (fun (t : ℕ) => (t : ℤ) > (now : ℤ) - (WINDOW_MS : ℤ))
    if kept.length ≠ 0 then rlSet st ip kept else rlDelete st ip

/-- `checkRateLimit(ip)`: prune, then reject (without appending) when the
pruned count already reaches `MAX_REQUESTS`, else append `now` and
admit. -/
def checkRateLimit (st : RLStore) (ip : String) (now : ℕ) :
    Except RateLimitExceededError Unit × RLStore :=
  let st1 := prune st ip now
  let timestamps := (rlGet st1 ip).getD []
  if MAX_REQUESTS ≤ timestamps.length then
    (.error (mkRateLimitExceededError ip timestamps.length), st1)
  else
    (.ok (), rlSet st1 ip (timestamps ++ [now]))

/-- Fold a sequence of `checkRateLimit` calls (threading only the store). -/
def runCalls (st : RLStore) (ip : String) : List ℕ → RLStore
  | [] => st
  | t :: ts => runCalls (checkRateLimit st ip t).2 ip ts

/-! ## Result cache (`lru-cache` with `max 50, ttl 5 * 60 * 1000`)

The library is an external dependency; its read path is modelled from
its documented semantics: a `get` returns the stored value only while
the entry is younger than the TTL (a stale entry reads as absent), and a
`set` replaces any entry under the same key and drops the excess beyond
the 50-entry capacity.  Recency bookkeeping only influences which entry
is evicted at capacity and is not tracked. -/

def CACHE_TTL_MS : ℕ := 5 * 60 * 1000

def CACHE_MAX : ℕ := 50

/-- Case-sensitive literal substring test (JS `String.includes`). -/
def containsStr (s pat : String) : Bool := containsSub pat.data s.data

/-- JS `toLowerCase` (ASCII; the compared literals are ASCII). -/
def lcStr (s : String) : String := ⟨lcChars s⟩

/-- The visual-forensics status field (`"captured" | "not_captured"`). -/
inductive VisualStatus where
  | captured
  | notCaptured
  deriving DecidableEq, Repr

/-- The visual-reuse flag (`"YES" | "NO" | "UNKNOWN"`). -/
inductive ReuseFlag where
  | yes
  | no
  | unknown
  deriving DecidableEq, Repr

/-- `InvestigationResult.onChain`. -/
structure OnChainOut where
  mintAuth : Option String
  freezeAuth : Option String
  supply : ℚ
  decimals : ℕ
  top10Percentage : ℚ
  creatorPercentage : ℚ
  isDumped : Bool
  isWhale : Bool
  deriving DecidableEq, Repr

/-- `InvestigationResult.creatorHistory`. -/
structure CreatorHistoryOut where
  creatorAddress : String
  previousTokens : ℕ
  isSerialLauncher : Bool
  deriving DecidableEq, Repr

/-- `InvestigationResult.socials`. -/
structure SocialsOut where
  website : Option String
  twitter : Option String
  telegram : Option String
  discord : Option String
  deriving DecidableEq, Repr

/-- `InvestigationResult.elephantMemory`. -/
structure ElephantOut where
  isKnownScammer : Bool
  previousFlags : Option ScammerRecord
  deriving DecidableEq, Repr

/-- `InvestigationResult` (utils.ts 556–645): the machine-readable
fields.  The narrative text fields (`summary`, `criminalProfile`,
`lies`, `evidence`, `analysis`, `visualAnalysis`,
`visualEvidenceSummary`, `veritasSays`, `degenComment`,
`thoughtSummary`, `analyzedAt`) are prose composed from the fields
modelled here and from the reasoning reply; no claim depends on their
contents, so they are not carried.  `market` and `rugCheck` are
field-by-field copies of the collaborator values of the same shape. -/
structure InvestigationResult where
  trustScore : ℚ
  verdict : Verdict
  visualEvidenceStatus : VisualStatus
  visualAssetReuse : ReuseFlag
  tokenAddress : String
  tokenName : String
  tokenSymbol : String
  onChain : OnChainOut
  market : Option MarketAnalysis
  rugCheck : Option TonSecurityReport
  creatorHistory : CreatorHistoryOut
  socials : SocialsOut
  elephantMemory : ElephantOut
  analysisTimeMs : ℕ
  deriving DecidableEq, Repr

/-- One slot of the result cache. -/
structure CacheEntry where
  key : String
  value : InvestigationResult
  insertedAt : ℕ
  deriving DecidableEq, Repr

abbrev ResultCache := List CacheEntry

/-- `resultCache.get(key)`: the stored value while fresh, absent once the
entry is older than the TTL or missing. -/
def cacheGet (c : ResultCache) (key : String) (now : ℕ) : Option InvestigationResult :=
  match c.find? (fun e => e.key == key) with
  | some e => if now < e.insertedAt + CACHE_TTL_MS then some e.value else none
  | none => none

/-- `resultCache.set(key, v)`: insert at the front, replacing any entry
under the same key and truncating to the capacity bound. -/
def cacheSet (c : ResultCache) (key : String) (v : InvestigationResult) (now : ℕ) : ResultCache :=
  ({ key, value := v, insertedAt := now } :: c.filter (fun e => e.key != key)).take CACHE_MAX

/-! ## The Investigation Orchestrator (`VeritasInvestigator.investigate`) -/

/-- The process-wide mutable state the orchestrator touches: the result
cache and the known-scammer registry. -/
structure VeritasState where
  cache : ResultCache
  registry : Registry
  deriving Repr

/-- The two exceptions `investigate` can throw. -/
inductive VeritasError where
  | invalidAddress
  | aiUnavailable
  deriving DecidableEq, Repr

/-- A network collaborator call issued during an investigation. -/
inductive CollabCall where
  | getTokenInfo
  | checkKnownScammer
  | getTokenSocials
  | getMarketAnalysis
  | fetchTonSecurity
  | getHolderDistribution
  | fetchScreenshot
  | getCreatorHistory
  | runUnifiedAnalysis
  | flagScammer
  deriving DecidableEq, Repr

/-- The value each external collaborator would produce during one
investigation, plus the clock readings the run observes.
`creatorHistoryCount` is the length of the historian's token list (a
fetch failure is caught to the empty list, i.e. 0); `screenshot` is the
capture outcome (`none` both for a failed capture and for the caught
rejection); `aiResult` is `runUnifiedAnalysis`'s parsed verdict, `none`
when the adapter failed or nothing was parseable. -/
structure Env where
  now : ℕ
  elapsedMs : ℕ
  flagAtMs : ℕ
  tonApi : TonApiResp
  socials : Option TokenSocials
  marketData : Option MarketAnalysis
  tonSecurity : Option TonSecurityReport
  holders : HolderResult
  screenshot : Option Screenshot
  creatorHistoryCount : ℕ
  aiResult : Option AiVerdict
  deriving Repr

/-- `buildKnownScammerResult` (utils.ts 1074–1149): the instant-block
result synthesized from the registry record alone. -/
def buildKnownScammerResult (tokenAddress : String) (tokenInfo : TokenInfoStub)
    (creatorAddress : String) (knownScammer : ScammerRecord) (elapsed : ℕ) :
    InvestigationResult :=
  let decimals := tokenInfo.decimals
  let supply := tokenInfo.supply / (10 : ℚ) ^ decimals
  { trustScore := 0,
    verdict := .danger,
    visualEvidenceStatus := .notCaptured,
    visualAssetReuse := .unknown,
    tokenAddress,
    tokenName := jsOrStrD knownScammer.tokenName "Unknown Token",
    tokenSymbol := "SCAM",
    onChain := { mintAuth := truthyOpt tokenInfo.mintAuthority,
                 freezeAuth := truthyOpt tokenInfo.freezeAuthority,
                 supply, decimals,
                 top10Percentage := 0, creatorPercentage := 0,
                 isDumped := true, isWhale := false },
    market := none,
    rugCheck := none,
    creatorHistory := { creatorAddress, previousTokens := knownScammer.scanCount,
                        isSerialLauncher := true },
    socials := { website := none, twitter := none, telegram := none, discord := none },
    elephantMemory := { isKnownScammer := true, previousFlags := some knownScammer },
    analysisTimeMs := elapsed }

/-- Phases 2–7 of `investigate` (after the cache, validation and
fast-path steps): parallel evidence fan-out, screenshot and history,
reasoning, score combination, registry write-back, visual-forensics
fields, result build and cache write. -/
def investigateFull (st : VeritasState) (env : Env) (tokenAddress : String)
    (tokenInfo : TokenInfoStub) (creatorAddress : Option String)
    (calls0 : List CollabCall) :
    Except VeritasError InvestigationResult × VeritasState × List CollabCall :=
  let decimals := tokenInfo.decimals
  let supply := tokenInfo.supply / (10 : ℚ) ^ decimals
  let socials := env.socials
  let marketData := env.marketData
  let rugCheckReport := env.tonSecurity
  let topHolders := env.holders.topHolders
  let top10Percentage := env.holders.top10Percentage
  let calls1 := calls0 ++ [CollabCall.getTokenSocials, CollabCall.getMarketAnalysis,
                           CollabCall.fetchTonSecurity, CollabCall.getHolderDistribution]
  let creatorStatus := analyzeCreator tokenInfo.mintAuthority tokenInfo.freezeAuthority
    topHolders supply
  let websiteUrl := socials.bind (·.website)
  let isRealWebsite : Bool :=
    match websiteUrl with
    | some w =>
      w != "" && jsTrim w != "" && lcStr (jsTrim w) != "none" &&
      !(containsStr w "t.me") && !(containsStr w "telegram.me") &&
      !(containsStr w "x.com") && !(containsStr w "twitter.com")
    | none => false
  let websiteScreenshot := if isRealWebsite then env.screenshot else none
  let creatorHistoryCount := env.creatorHistoryCount
  let calls2 := calls1 ++ (if isRealWebsite then [CollabCall.fetchScreenshot] else [])
                       ++ [CollabCall.getCreatorHistory]
  let tokenName := jsOrStrD (socials.bind (·.name)) "Token"
  let tokenSymbol := jsOrStrD (socials.bind (·.symbol)) "TOKEN"
  match env.aiResult with
  | none => (.error .aiUnavailable, st, calls2 ++ [CollabCall.runUnifiedAnalysis])
  | some aiResult =>
    let calls3 := calls2 ++ [CollabCall.runUnifiedAnalysis]
    let deterministicScore := computeTrustScore tokenInfo.mintAuthority
      tokenInfo.freezeAuthority top10Percentage
      (marketData.map fun md => { liquidity := md.liquidity, marketCap := md.marketCap })
      creatorStatus rugCheckReport ((marketData.map (·.ageInHours)).getD 0)
    let finalScore := combineScores (deterministicScore : ℚ) aiResult.trustScore
      websiteScreenshot aiResult.visualAnalysis
    let finalVerdict := verdictOfScore finalScore
    let (registry2, calls4) :=
      match truthyOpt creatorAddress with
      | some ca =>
        if finalVerdict = .danger then
          ((flagScammer st.registry ca tokenAddress tokenName "Danger" aiResult.summary
              env.flagAtMs).2,
           calls3 ++ [CollabCall.flagScammer])
        else (st.registry, calls3)
      | none => (st.registry, calls3)
    let visualTrust : Bool :=
      websiteScreenshot.isSome &&
      (match aiResult.visualAnalysis with
       | some v => v != "" && jsTrim v != ""
       | none => false)
    let rawVisual := if visualTrust then aiResult.visualAnalysis else none
    let visualEvidenceStatus := if visualTrust then VisualStatus.captured
                                else VisualStatus.notCaptured
    let hasYes : Bool := match rawVisual with | some v => hasReuseYes v | none => false
    let hasNo : Bool := match rawVisual with | some v => hasReuseNo v | none => false
    let visualAssetReuse :=
      if hasYes then ReuseFlag.yes else if hasNo then ReuseFlag.no else ReuseFlag.unknown
    let finalResult : InvestigationResult :=
      { trustScore := finalScore,
        verdict := finalVerdict,
        visualEvidenceStatus, visualAssetReuse,
        tokenAddress, tokenName, tokenSymbol,
        onChain := { mintAuth := tokenInfo.mintAuthority,
                     freezeAuth := tokenInfo.freezeAuthority,
                     supply, decimals, top10Percentage,
                     creatorPercentage := creatorStatus.creatorPercentage,
                     isDumped := creatorStatus.isDumped,
                     isWhale := creatorStatus.isWhale },
        market := marketData,
        rugCheck := rugCheckReport,
        creatorHistory := { creatorAddress := creatorStatus.creatorAddress,
                            previousTokens := creatorHistoryCount,
                            isSerialLauncher := decide (2 ≤ creatorHistoryCount) },
        socials := { website := socials.bind (·.website),
                     twitter := socials.bind (·.twitter),
                     telegram := socials.bind (·.telegram),
                     discord := socials.bind (·.discord) },
        elephantMemory := { isKnownScammer := false, previousFlags := none },
        analysisTimeMs := env.elapsedMs }
    (.ok finalResult,
     { cache := cacheSet st.cache (jsTrim tokenAddress) finalResult env.now,
       registry := registry2 },
     calls4)

/-- `investigate` (utils.ts 668–988): cache short-circuit, address
validation, known-scammer fast path, then the full pipeline. -/
def investigate (st : VeritasState) (env : Env) (tokenAddress : String) :
    Except VeritasError InvestigationResult × VeritasState × List CollabCall :=
  let cacheKey := jsTrim tokenAddress
  match cacheGet st.cache cacheKey env.now with
  | some cached => (.ok cached, st, [])
  | none =>
    if !validateAddress tokenAddress then (.error .invalidAddress, st, [])
    else
      let tokenInfo := getTokenInfo env.tonApi
      let creatorAddress := jsOrStr tokenInfo.mintAuthority tokenInfo.freezeAuthority
      match truthyOpt creatorAddress with
      | some ca =>
        let checked := checkKnownScammer st.registry ca
        match checked.1 with
        | some knownScammer =>
          (.ok (buildKnownScammerResult tokenAddress tokenInfo ca knownScammer env.elapsedMs),
           { st with registry := checked.2 },
           [CollabCall.getTokenInfo, CollabCall.checkKnownScammer])
        | none =>
          investigateFull { st with registry := checked.2 } env tokenAddress tokenInfo
            creatorAddress [CollabCall.getTokenInfo, CollabCall.checkKnownScammer]
      | none =>
        investigateFull st env tokenAddress tokenInfo creatorAddress
          [CollabCall.getTokenInfo]

/-- The non-authority deductions of `computeTrustScore` (holder
concentration, creator behaviour, liquidity health, token age, audit
risk), collected for stating how the two authority penalties combine. -/
def nonAuthDeductions (top10Percentage : ℚ) (marketData : Option MarketLite)
    (creatorStatus : CreatorStatus) (tonSecurity : Option TonSecurityReport)
    (ageInHours : ℚ) : ℤ :=
  (if top10Percentage > 50 then 15 else if top10Percentage > 30 then 10 else 0) +
  (if creatorStatus.isDumped then 15 else 0) +
  (if creatorStatus.isWhale then 10 else 0) +
  (match marketData with
   | some md =>
     if md.liquidity < 5000 then 20
     else if md.marketCap > 0 then
       if md.liquidity / md.marketCap < 2 / 100 then 15 else 0
     else 0
   | none => 0) +
  (if ageInHours < 1 then 10 else 0) +
  (match tonSecurity with
   | some ts => if ts.score > 500 then 20 else if ts.score > 200 then 10 else 0
   | none => 0)

/-! ## Concrete inputs used by witnesses and counterexamples -/

/-- A registry record for a previously flagged deployer. -/
def sampleRecord : ScammerRecord :=
  { deployerAddress := "ScammerWallet001", tokenAddress := "OldScamToken001",
    tokenName := some "OldScam", verdict := "Danger", reason := "Rug pull",
    flaggedAt := 1000, scanCount := 3 }

/-- An environment in which every collaborator degrades to its neutral
value and the reasoning adapter yields nothing. -/
def envBase : Env :=
  { now := 0, elapsedMs := 5, flagAtMs := 7, tonApi := .failure, socials := none,
    marketData := none, tonSecurity := none,
    holders := { topHolders := [], top10Percentage := 0 },
    screenshot := none, creatorHistoryCount := 0, aiResult := none }

/-- An environment in which the token's admin resolves to the flagged
deployer of `sampleRecord`. -/
def envScam : Env :=
  { envBase with
    tonApi := .ok { totalSupply := some 1000, decimals := some 9,
                    admin := some "ScammerWallet001" } }

/-- A stored investigation result used to populate a cache entry. -/
def sampleResult : InvestigationResult :=
  { trustScore := 42, verdict := .caution, visualEvidenceStatus := .notCaptured,
    visualAssetReuse := .unknown, tokenAddress := "TokenAddress1",
    tokenName := "Token", tokenSymbol := "TOKEN",
    onChain := { mintAuth := none, freezeAuth := none, supply := 0, decimals := 9,
                 top10Percentage := 0, creatorPercentage := 0,
                 isDumped := false, isWhale := false },
    market := none, rugCheck := none,
    creatorHistory := { creatorAddress := "Unknown", previousTokens := 0,
                        isSerialLauncher := false },
    socials := { website := none, twitter := none, telegram := none, discord := none },
    elephantMemory := { isKnownScammer := false, previousFlags := none },
    analysisTimeMs := 3 }

/-- Process state holding the flagged deployer and an empty cache. -/
def stScam : VeritasState := { cache := [], registry := [sampleRecord] }

/-- Process state holding a fresh cache entry for `"TokenAddress1"`. -/
def stCache : VeritasState :=
  { cache := [{ key := "TokenAddress1", value := sampleResult, insertedAt := 0 }],
    registry := [] }

/-- Empty process state. -/
def stEmpty : VeritasState := { cache := [], registry := [] }

/-! ## Claim theorems -/

/-- C1: for all deterministic scores `D` and reasoning scores `A` in
`[0, 100]` and any screenshot/rationale inputs, the published score of
the combination step never exceeds `min(D, A)`: the combination takes
the minimum and the visual-reuse override can only lower it further. -/
theorem published_le_min_det_ai (d a : ℚ) (shot : Option Screenshot)
    (va : Option String) (hd0 : 0 ≤ d) (hd : d ≤ 100) (ha0 : 0 ≤ a) (ha : a ≤ 100) :
    combineScores d a shot va ≤ min d a := by
  simp only [combineScores]
  split
  · next h =>
    simp only [Bool.and_eq_true, decide_eq_true_eq] at h
    first
    | exact le_of_lt h.2.2
    | exact le_of_lt h.2
  · exact le_refl _

/-- Witness for C1 at `D = 80`, `A = 75` with no visual evidence. -/
theorem published_le_min_det_ai_witness :
    combineScores 80 75 none none ≤ min 80 75 :=
  published_le_min_det_ai 80 75 none none (by norm_num) (by norm_num)
    (by norm_num) (by norm_num)

/-- C4: the deterministic score engine on mint authority enabled, freeze
authority disabled, top-10 concentration 20 %, liquidity 50 000, market
cap 2 000 000, creator neither dumped nor whale, pool age 10 h and no
audit report yields exactly `100 - 40 = 60`. -/
theorem deterministic_score_round_trip :
    computeTrustScore (some "EQCreatorWallet01") none 20
      (some { liquidity := 50000, marketCap := 2000000 })
      { creatorAddress := "EQCreatorWallet01", creatorPercentage := 5,
        isDumped := false, isWhale := false }
      none 10 = 60 := by
  norm_num [computeTrustScore, strTruthy]
  rw [if_neg (show ¬("EQCreatorWallet01" : String) = "" by decide)]
  omega

/-- C5: the visual-reuse override is inert without a screenshot (the
published score is exactly `min(D, A)`), and with a screenshot, a
rationale carrying a `VISUAL ASSET REUSE: YES` signal not excused as
meme culture, and a pre-override published score of 75, the published
score becomes exactly 50. -/
theorem visual_reuse_override_caps_at_50 :
    (∀ (d a : ℚ) (va : Option String), combineScores d a none va = min d a) ∧
    (∀ (d a : ℚ) (sc : Screenshot) (v : String),
      hasReuseYes v = true → memeExcused v = false →
      combineScores d a (some sc) (some v) = min (min d a) 50) ∧
    (∀ (d a : ℚ) (sc : Screenshot) (v : String),
      min d a = 75 → hasReuseYes v = true → memeExcused v = false →
      combineScores d a (some sc) (some v) = 50) := by
  have hcap : ∀ (d a : ℚ) (sc : Screenshot) (v : String),
      hasReuseYes v = true → memeExcused v = false →
      combineScores d a (some sc) (some v) = min (min d a) 50 := by
    intro d a sc v hyes hmeme
    have hv : (v != "") = true := by
      rw [bne_iff_ne]
      intro hve
      rw [hve] at hyes
      exact absurd hyes (by decide)
    simp only [combineScores]
    rcases le_or_lt (min d a) 50 with hle | hlt
    · rw [min_eq_left hle, if_neg]
      simp only [Option.isSome_some, hv, hyes, hmeme, Bool.not_false, Bool.true_and,
        Bool.and_true, Bool.and_self, decide_eq_true_eq]
      exact not_lt.mpr hle
    · rw [min_eq_right hlt.le, if_pos]
      simp only [Option.isSome_some, hv, hyes, hmeme, Bool.not_false, Bool.true_and,
        Bool.and_true, Bool.and_self, decide_eq_true_eq]
      exact hlt
  refine ⟨?_, hcap, ?_⟩
  · intro d a va
    simp [combineScores]
  · intro d a sc v hmin hyes hmeme
    rw [hcap d a sc v hyes hmeme, hmin]
    norm_num

/-- Witness for C5: both conjuncts applied at `D = 80`, `A = 75` and a
concrete non-meme reuse rationale. -/
theorem visual_reuse_override_caps_at_50_witness :
    combineScores 80 75 none (some "VISUAL ASSET REUSE: YES. Stolen layout.") = min 80 75 ∧
    combineScores 80 75 (some { base64 := "abc", mimeType := "image/png" })
      (some "VISUAL ASSET REUSE: YES. Stolen layout.") = min (min 80 75) 50 ∧
    combineScores 80 75 (some { base64 := "abc", mimeType := "image/png" })
      (some "VISUAL ASSET REUSE: YES. Stolen layout.") = 50 :=
  ⟨visual_reuse_override_caps_at_50.1 80 75 _,
   visual_reuse_override_caps_at_50.2.1 80 75 _ _ (by decide) (by decide),
   visual_reuse_override_caps_at_50.2.2 80 75 _ _ (by norm_num) (by decide) (by decide)⟩

/-- Pulling a penalty subtraction out of a two-branch conditional. -/
theorem ite_sub (c : Prop) [Decidable c] (x k : ℤ) :
    (if c then x - k else x) = x - (if c then k else 0) := by
  split_ifs <;> omega

/-- Pulling a common subtrahend out of a conditional whose branches both
subtract from the same base. -/
theorem ite_sub2 (c : Prop) [Decidable c] (x k₁ k₂ : ℤ) :
    (if c then x - k₁ else x - k₂) = x - (if c then k₁ else k₂) := by
  split_ifs <;> omega

/-- The deterministic score as base 100 minus the two authority
penalties minus the non-authority deductions, clamped. -/
theorem computeTrustScore_decompose (m f : Option String) (t10 : ℚ)
    (md : Option MarketLite) (cs : CreatorStatus) (ts : Option TonSecurityReport)
    (age : ℚ) :
    computeTrustScore m f t10 md cs ts age =
      min 88 (max 0 (100 - (if strTruthy m then 40 else 0)
        - (if strTruthy f then 40 else 0)
        - nonAuthDeductions t10 md cs ts age)) := by
  unfold computeTrustScore nonAuthDeductions
  cases md <;> cases ts <;>
    (simp only [ite_sub, ite_sub2]
     congr 1
     congr 1
     ring)

/-- C9: both authorities returned by `getTokenInfo` are mapped from the
same `admin` field and hence always equal (both `null` on failure or a
missing/empty admin); consequently, on any token info the two 40-point
authority penalties of the deterministic score fire together — relative
to the non-authority deductions the pair subtracts either 0 or 80 from
the base 100, never 40 alone. -/
theorem authorities_equal_and_penalties_paired :
    (∀ resp : TonApiResp,
       (getTokenInfo resp).mintAuthority = (getTokenInfo resp).freezeAuthority) ∧
    (∀ (m : Option String) (t10 : ℚ) (md : Option MarketLite) (cs : CreatorStatus)
       (ts : Option TonSecurityReport) (age : ℚ),
       computeTrustScore m m t10 md cs ts age =
         min 88 (max 0 (100 - nonAuthDeductions t10 md cs ts age)) ∨
       computeTrustScore m m t10 md cs ts age =
         min 88 (max 0 (100 - 80 - nonAuthDeductions t10 md cs ts age))) := by
  constructor
  · intro resp
    cases resp with
    | failure => rfl
    | ok d => rfl
  · intro m t10 md cs ts age
    cases hm : strTruthy m
    · left
      rw [computeTrustScore_decompose, hm]
      norm_num
    · right
      rw [computeTrustScore_decompose, hm]
      norm_num

/-- C6 counterexample: the syntactically valid JSON reply `\x7b\x7d` —
missing both the numeric trust score and the verdict — is not rejected
by the parser: it yields a verdict object with the substituted values
`trustScore = 50` and `verdict = "Caution"`, contradicting the claim
that such a reply produces no verdict. -/
theorem parser_substitutes_defaults_counterexample :
    parseUnifiedResponse (some (Json.obj [])) =
      some { trustScore := 50, verdict := Json.str "Caution",
             summary := Json.str "Analysis complete.",
             criminalProfile := Json.str "Unknown Entity",
             lies := [], evidence := [], analysis := [],
             visualAnalysis := none,
             degenComment := Json.str "Do your own research, anon. 🔍" } := by
  norm_num [parseUnifiedResponse, jsField, jsNumberOf, jsOrJson, jsArrOr,
    ParsedUnified.mk.injEq]

/-- C6 amended: the parser never crashes and returns `none` exactly when
no JSON could be parsed out of the reply; a syntactically valid JSON
reply missing the numeric trust score (resp. the verdict) is accepted
with the substituted default `trustScore = 50` (resp.
`verdict = "Caution"`) rather than being rejected. -/
theorem parser_missing_fields_defaulted :
    parseUnifiedResponse none = none ∧
    (∀ fields : List (String × Json),
      jsField (Json.obj fields) "trustScore" = none →
      (parseUnifiedResponse (some (Json.obj fields))).map (·.trustScore) = some 50) ∧
    (∀ fields : List (String × Json),
      jsField (Json.obj fields) "verdict" = none →
      (parseUnifiedResponse (some (Json.obj fields))).map (·.verdict) =
        some (Json.str "Caution")) := by
  refine ⟨rfl, ?_, ?_⟩
  · intro fields h
    simp only [parseUnifiedResponse]
    rw [h]
    show some (min 100 (max 0 (50 : ℚ))) = some 50
    norm_num
  · intro fields h
    simp only [parseUnifiedResponse]
    rw [h]
    rfl

/-- Witness for the amended C6 at the empty JSON object. -/
theorem parser_missing_fields_defaulted_witness :
    (parseUnifiedResponse (some (Json.obj []))).map (·.trustScore) = some 50 ∧
    (parseUnifiedResponse (some (Json.obj []))).map (·.verdict) =
      some (Json.str "Caution") :=
  ⟨parser_missing_fields_defaulted.2.1 [] rfl,
   parser_missing_fields_defaulted.2.2 [] rfl⟩

/-- Looking up the key of a one-entry store. -/
theorem rlGet_single (ip : String) (l : List ℕ) : rlGet [(ip, l)] ip = some l := by
  simp [rlGet, List.find?]

/-- Pruning is a no-op on a one-entry store whose timestamps all lie
within the window of `now`. -/
theorem prune_single_noop (ip : String) (l : List ℕ) (now : ℕ) (hne : l ≠ [])
    (hwin : ∀ t ∈ l, (now : ℤ) < t + WINDOW_MS) :
    prune [(ip, l)] ip now = [(ip, l)] := by
  unfold prune
  rw [rlGet_single]
  have hfilter : l.filter (fun (t : ℕ) => (t : ℤ) > (now : ℤ) - (WINDOW_MS : ℤ)) = l := by
    rw [List.filter_eq_self]
    intro a ha
    have := hwin a ha
    simp only [decide_eq_true_eq]
    omega
  cases l with
  | nil => exact absurd rfl hne
  | cons a as =>
    simp only [hfilter]
    rw [if_pos (by simp)]
    simp [rlSet]

/-- One `checkRateLimit` call on a one-entry store whose timestamps lie
within the window: reject without appending at the ceiling, else append. -/
theorem checkRateLimit_single (ip : String) (l : List ℕ) (now : ℕ) (hne : l ≠ [])
    (hwin : ∀ t ∈ l, (now : ℤ) < t + WINDOW_MS) :
    checkRateLimit [(ip, l)] ip now =
      if MAX_REQUESTS ≤ l.length then
        (.error (mkRateLimitExceededError ip l.length), [(ip, l)])
      else (.ok (), [(ip, l ++ [now])]) := by
  unfold checkRateLimit
  rw [prune_single_noop ip l now hne hwin]
  simp only [rlGet_single, Option.getD_some]
  split_ifs with h
  · rfl
  · simp [rlSet]

/-- The first call on an empty store admits and stores the timestamp. -/
theorem checkRateLimit_empty (ip : String) (now : ℕ) :
    checkRateLimit [] ip now = (.ok (), [(ip, [now])]) := rfl

/-- Folding calls over a one-entry store of in-window timestamps stores
exactly the first `MAX_REQUESTS` admissions. -/
theorem runCalls_single (ip : String) : ∀ (ts l : List ℕ), l ≠ [] →
    (∀ t ∈ l ++ ts, ∀ u ∈ l ++ ts, (u : ℤ) < t + WINDOW_MS) →
    runCalls [(ip, l)] ip ts = [(ip, l ++ ts.take (MAX_REQUESTS - l.length))]
  | [], l, _, _ => by simp [runCalls]
  | t :: ts, l, hne, H => by
    have hwin : ∀ x ∈ l, (t : ℤ) < x + WINDOW_MS := fun x hx =>
      H x (List.mem_append_left _ hx) t (List.mem_append_right _ (List.mem_cons_self _ _))
    rw [runCalls, checkRateLimit_single ip l t hne hwin]
    by_cases h5 : MAX_REQUESTS ≤ l.length
    · rw [if_pos h5]
      have hz : MAX_REQUESTS - l.length = 0 := Nat.sub_eq_zero_of_le h5
      have H' : ∀ a ∈ l ++ ts, ∀ b ∈ l ++ ts, (b : ℤ) < a + WINDOW_MS := by
        intro a ha b hb
        apply H <;> simp only [List.mem_append, List.mem_cons] at ha hb ⊢ <;> tauto
      rw [runCalls_single ip ts l hne H', hz]
      simp [hz]
    · rw [if_neg h5]
      have hlt : l.length < MAX_REQUESTS := lt_of_not_ge h5
      have H' : ∀ a ∈ (l ++ [t]) ++ ts, ∀ b ∈ (l ++ [t]) ++ ts, (b : ℤ) < a + WINDOW_MS := by
        intro a ha b hb
        apply H <;> simp only [List.mem_append, List.mem_cons, List.mem_singleton]
          at ha hb ⊢ <;> tauto
      rw [runCalls_single ip ts (l ++ [t]) (by simp) H']
      have harith : MAX_REQUESTS - l.length = (MAX_REQUESTS - (l.length + 1)) + 1 := by omega
      simp only [List.length_append, List.length_singleton, harith, List.take_succ_cons,
        List.append_assoc, List.singleton_append]

/-- C7: `checkRateLimit` first prunes the stored timestamps to the
60-second window; at a pruned count at or above the ceiling of 5 it
throws `RateLimitExceededError` with the fixed `retryAfterSeconds = 60`
and appends nothing, otherwise it appends the current timestamp and
admits; consequently, starting from an empty store, after any `N ≥ 5`
calls within one window the `(N+1)`-th call in that window is rejected
with the same fixed retry-after and an unchanged store. -/
theorem rate_limit_ceiling :
    (∀ (st : RLStore) (ip : String) (now : ℕ),
      MAX_REQUESTS ≤ ((rlGet (prune st ip now) ip).getD []).length →
      checkRateLimit st ip now =
        (.error (mkRateLimitExceededError ip ((rlGet (prune st ip now) ip).getD []).length),
         prune st ip now)) ∧
    (∀ (st : RLStore) (ip : String) (now : ℕ),
      ((rlGet (prune st ip now) ip).getD []).length < MAX_REQUESTS →
      checkRateLimit st ip now =
        (.ok (), rlSet (prune st ip now) ip
          (((rlGet (prune st ip now) ip).getD []) ++ [now]))) ∧
    (∀ (ip : String) (ts : List ℕ) (t' : ℕ),
      5 ≤ ts.length →
      (∀ x ∈ ts ++ [t'], ∀ y ∈ ts ++ [t'], (y : ℤ) < x + WINDOW_MS) →
      checkRateLimit (runCalls [] ip ts) ip t' =
        (.error (mkRateLimitExceededError ip 5), runCalls [] ip ts)) := by
  refine ⟨?_, ?_, ?_⟩
  · intro st ip now h
    unfold checkRateLimit
    rw [if_pos h]
  · intro st ip now h
    unfold checkRateLimit
    rw [if_neg (not_le.mpr h)]
  · intro ip ts t' h5 H
    cases ts with
    | nil => simp at h5
    | cons t ts' =>
      have hrun : runCalls [] ip (t :: ts') =
          [(ip, [t] ++ ts'.take (MAX_REQUESTS - 1))] := by
        rw [runCalls, checkRateLimit_empty]
        exact runCalls_single ip ts' [t] (by simp) (by
          intro a ha b hb
          apply H <;> simp only [List.mem_append, List.mem_cons, List.mem_singleton]
            at ha hb ⊢ <;> tauto)
      have hlen : ([t] ++ ts'.take (MAX_REQUESTS - 1)).length = 5 := by
        simp only [List.length_append, List.length_singleton, List.length_take,
          MAX_REQUESTS]
        simp only [List.length_cons] at h5
        omega
      have hwin : ∀ x ∈ [t] ++ ts'.take (MAX_REQUESTS - 1), (t' : ℤ) < x + WINDOW_MS := by
        intro x hx
        apply H x _ t' (by simp)
        simp only [List.mem_append, List.mem_singleton, List.mem_cons] at hx ⊢
        rcases hx with hx | hx
        · tauto
        · exact Or.inl (Or.inr (List.take_subset _ _ hx))
      rw [hrun, checkRateLimit_single ip _ t' (by simp) hwin, hlen,
        if_pos (by norm_num [MAX_REQUESTS])]

/-- Witness for C7: a 6th call in the same minute after 5 admitted calls
is rejected with `retryAfterSeconds = 60`. -/
theorem rate_limit_ceiling_witness :
    checkRateLimit (runCalls [] "client-ip" [1000, 2000, 3000, 4000, 5000]) "client-ip" 6000 =
      (.error (mkRateLimitExceededError "client-ip" 5),
       runCalls [] "client-ip" [1000, 2000, 3000, 4000, 5000]) :=
  rate_limit_ceiling.2.2 "client-ip" [1000, 2000, 3000, 4000, 5000] 6000
    (by norm_num) (by
      intro x hx y hy
      fin_cases hx <;> fin_cases hy <;> norm_num [WINDOW_MS])

/-- The counter increment performed by a registry hit is visible to the
next lookup of the same deployer. -/
theorem findScammer_incScanCount (db : Registry) (a : String) (r : ScammerRecord)
    (h : findScammer db a = some r) :
    findScammer (incScanCount db a) a = some { r with scanCount := r.scanCount + 1 } := by
  induction db with
  | nil => simp [findScammer] at h
  | cons x xs ih =>
    by_cases hx : (x.deployerAddress == a) = true
    · unfold findScammer at h
      rw [if_pos hx] at h
      obtain rfl : x = r := Option.some.inj h
      unfold incScanCount
      rw [if_pos hx]
      unfold findScammer
      dsimp only
      rw [if_pos hx]
    · unfold findScammer at h
      rw [if_neg hx] at h
      unfold incScanCount
      rw [if_neg hx]
      unfold findScammer
      rw [if_neg hx]
      exact ih h

/-- The known-scammer fast path of `investigate`: cache miss, valid
address, truthy creator, registry hit — the instant-block result is
returned, the registry counter is bumped, the cache is untouched and
only the token-info fetch and the registry lookup ran. -/
theorem investigate_fastPath (st : VeritasState) (env : Env) (addr ca : String)
    (rec : ScammerRecord)
    (hmiss : cacheGet st.cache (jsTrim addr) env.now = none)
    (hvalid : validateAddress addr = true)
    (hca : truthyOpt (jsOrStr (getTokenInfo env.tonApi).mintAuthority
      (getTokenInfo env.tonApi).freezeAuthority) = some ca)
    (hrec : findScammer st.registry ca = some rec) :
    investigate st env addr =
      (.ok (buildKnownScammerResult addr (getTokenInfo env.tonApi) ca rec env.elapsedMs),
       { cache := st.cache, registry := incScanCount st.registry ca },
       [CollabCall.getTokenInfo, CollabCall.checkKnownScammer]) := by
  simp only [investigate]
  rw [hmiss, hca]
  simp only [hvalid, Bool.not_true, checkKnownScammer, hrec]
  rfl

/-- C2: on a cache miss, when the token's resolved creator identity is
present in the registry, `investigate` returns the instant-block result
with `trustScore = 0` and verdict `Danger`, performs no evidence
gathering or reasoning beyond the token-info fetch and the registry
lookup, and the lookup increments the stored `scanCount` by exactly 1. -/
theorem known_scammer_fast_path (st : VeritasState) (env : Env) (addr ca : String)
    (rec : ScammerRecord)
    (hmiss : cacheGet st.cache (jsTrim addr) env.now = none)
    (hvalid : validateAddress addr = true)
    (hca : truthyOpt (jsOrStr (getTokenInfo env.tonApi).mintAuthority
      (getTokenInfo env.tonApi).freezeAuthority) = some ca)
    (hrec : findScammer st.registry ca = some rec) :
    (investigate st env addr).1 =
      .ok (buildKnownScammerResult addr (getTokenInfo env.tonApi) ca rec env.elapsedMs) ∧
    (buildKnownScammerResult addr (getTokenInfo env.tonApi) ca rec env.elapsedMs).trustScore
      = 0 ∧
    (buildKnownScammerResult addr (getTokenInfo env.tonApi) ca rec env.elapsedMs).verdict
      = .danger ∧
    (investigate st env addr).2.2 =
      [CollabCall.getTokenInfo, CollabCall.checkKnownScammer] ∧
    findScammer (investigate st env addr).2.1.registry ca =
      some { rec with scanCount := rec.scanCount + 1 } := by
  have h := investigate_fastPath st env addr ca rec hmiss hvalid hca hrec
  refine ⟨by rw [h], rfl, rfl, by rw [h], ?_⟩
  rw [h]
  exact findScammer_incScanCount st.registry ca rec hrec

/-- Witness for C2 at a one-record registry and empty cache. -/
theorem known_scammer_fast_path_witness :
    (investigate stScam envScam "TokenAddress1").1 =
      .ok (buildKnownScammerResult "TokenAddress1" (getTokenInfo envScam.tonApi)
        "ScammerWallet001" sampleRecord envScam.elapsedMs) ∧
    (buildKnownScammerResult "TokenAddress1" (getTokenInfo envScam.tonApi)
      "ScammerWallet001" sampleRecord envScam.elapsedMs).trustScore = 0 ∧
    (buildKnownScammerResult "TokenAddress1" (getTokenInfo envScam.tonApi)
      "ScammerWallet001" sampleRecord envScam.elapsedMs).verdict = .danger ∧
    (investigate stScam envScam "TokenAddress1").2.2 =
      [CollabCall.getTokenInfo, CollabCall.checkKnownScammer] ∧
    findScammer (investigate stScam envScam "TokenAddress1").2.1.registry
      "ScammerWallet001" =
      some { sampleRecord with scanCount := sampleRecord.scanCount + 1 } :=
  known_scammer_fast_path stScam envScam "TokenAddress1" "ScammerWallet001" sampleRecord
    rfl (by decide) rfl rfl

/-- C8: a fresh cache entry short-circuits a repeat investigation: the
identical stored result is returned, the state is untouched, and no
collaborator call is performed. -/
theorem cache_hit_short_circuit (st : VeritasState) (env : Env) (addr : String)
    (r : InvestigationResult)
    (h : cacheGet st.cache (jsTrim addr) env.now = some r) :
    investigate st env addr = (.ok r, st, []) := by
  simp only [investigate]
  rw [h]

/-- Witness for C8 at a one-entry cache read within the TTL. -/
theorem cache_hit_short_circuit_witness :
    investigate stCache envBase "TokenAddress1" = (.ok sampleResult, stCache, []) :=
  cache_hit_short_circuit stCache envBase "TokenAddress1" sampleResult rfl

/-- C3 counterexample: with the reasoning adapter yielding nothing
parseable (`aiResult = none`), `investigate` does not complete with the
deterministic score — it throws the `aiUnavailable` error
(`"AI analysis failed to return result"`) to the caller. -/
theorem reasoning_unavailable_throws_counterexample :
    envBase.aiResult = none ∧
    (investigate stEmpty envBase "TokenAddress1").1 =
      Except.error VeritasError.aiUnavailable :=
  ⟨rfl, rfl⟩

/-- C3 amended: when the reasoning adapter yields `none`, a cache-missed
investigation of a valid address whose creator is not a known scammer
raises the `aiUnavailable` error to the caller instead of falling back
to the deterministic score. -/
theorem reasoning_unavailable_throws (st : VeritasState) (env : Env) (addr : String)
    (hmiss : cacheGet st.cache (jsTrim addr) env.now = none)
    (hvalid : validateAddress addr = true)
    (hnoscam : ∀ ca, truthyOpt (jsOrStr (getTokenInfo env.tonApi).mintAuthority
        (getTokenInfo env.tonApi).freezeAuthority) = some ca →
        findScammer st.registry ca = none)
    (hai : env.aiResult = none) :
    (investigate st env addr).1 = .error .aiUnavailable := by
  simp only [investigate]
  rw [hmiss]
  simp only [hvalid, Bool.not_true]
  cases hc : truthyOpt (jsOrStr (getTokenInfo env.tonApi).mintAuthority
      (getTokenInfo env.tonApi).freezeAuthority) with
  | some ca =>
    simp only [checkKnownScammer, hnoscam ca hc, investigateFull, hai]
    rfl
  | none =>
    simp only [investigateFull, hai]
    rfl

/-- Witness for the amended C3 on an all-degraded environment. -/
theorem reasoning_unavailable_throws_witness :
    (investigate stEmpty envBase "TokenAddress1").1 = .error .aiUnavailable :=
  reasoning_unavailable_throws stEmpty envBase "TokenAddress1" rfl (by decide)
    (fun ca hca => Option.noConfusion hca) rfl

/-- C10: a known-scammer fast-path investigation leaves the result cache
unchanged (the instant-block result is never stored), so a repeat
investigation of the same token performs the registry lookup again —
two consecutive investigations bump the record's `scanCount` twice. -/
theorem fast_path_not_cached (st : VeritasState) (env env2 : Env) (addr ca : String)
    (rec : ScammerRecord)
    (hnoentry : st.cache.find? (fun e => e.key == jsTrim addr) = none)
    (hvalid : validateAddress addr = true)
    (hca : truthyOpt (jsOrStr (getTokenInfo env.tonApi).mintAuthority
      (getTokenInfo env.tonApi).freezeAuthority) = some ca)
    (hca2 : truthyOpt (jsOrStr (getTokenInfo env2.tonApi).mintAuthority
      (getTokenInfo env2.tonApi).freezeAuthority) = some ca)
    (hrec : findScammer st.registry ca = some rec) :
    (investigate st env addr).2.1.cache = st.cache ∧
    (investigate (investigate st env addr).2.1 env2 addr).2.2 =
      [CollabCall.getTokenInfo, CollabCall.checkKnownScammer] ∧
    findScammer (investigate (investigate st env addr).2.1 env2 addr).2.1.registry ca =
      some { rec with scanCount := rec.scanCount + 2 } := by
  have hmiss : cacheGet st.cache (jsTrim addr) env.now = none := by
    unfold cacheGet
    rw [hnoentry]
  have h1 := investigate_fastPath st env addr ca rec hmiss hvalid hca hrec
  have hrec1 : findScammer (incScanCount st.registry ca) ca =
      some { rec with scanCount := rec.scanCount + 1 } :=
    findScammer_incScanCount st.registry ca rec hrec
  have hmiss2 : cacheGet st.cache (jsTrim addr) env2.now = none := by
    unfold cacheGet
    rw [hnoentry]
  have h2 := investigate_fastPath
    { cache := st.cache, registry := incScanCount st.registry ca } env2 addr ca
    { rec with scanCount := rec.scanCount + 1 } hmiss2 hvalid hca2 hrec1
  refine ⟨by rw [h1], ?_, ?_⟩
  · rw [h1]
    dsimp only
    rw [h2]
  · rw [h1]
    dsimp only
    rw [h2]
    dsimp only
    exact findScammer_incScanCount (incScanCount st.registry ca) ca _ hrec1

/-- Witness for C10: two consecutive investigations of the flagged
token bump the record's counter from 3 to 5, uncached. -/
theorem fast_path_not_cached_witness :
    (investigate stScam envScam "TokenAddress1").2.1.cache = stScam.cache ∧
    (investigate (investigate stScam envScam "TokenAddress1").2.1 envScam
        "TokenAddress1").2.2 =
      [CollabCall.getTokenInfo, CollabCall.checkKnownScammer] ∧
    findScammer (investigate (investigate stScam envScam "TokenAddress1").2.1 envScam
        "TokenAddress1").2.1.registry "ScammerWallet001" =
      some { sampleRecord with scanCount := sampleRecord.scanCount + 2 } :=
  fast_path_not_cached stScam envScam envScam "TokenAddress1" "ScammerWallet001"
    sampleRecord rfl (by decide) rfl rfl rfl

end Veritas
